import Mathlib

/-!
# rialoPredict frontend: API client, Dashboard, PredictionCard, StockChart

A shallow embedding of `frontend/src/utils/api.js`,
`frontend/src/pages/Dashboard.jsx` and the dashboard components, followed by
theorems about them.

Conventions.
* A JavaScript promise is modelled by its settlement: `Except ε α`
  (`.ok` = resolved, `.error` = rejected).
* The HTTP transport (axios) is an oracle `Http ε δ` mapping the request
  that is sent to the settlement of the call.
* Side effects of an `async` function (requests sent, `console.error`
  lines) are threaded explicitly through a `Trace`.
-/

namespace Rialo

/-! ## `utils/api.js` -/

/-- HTTP verbs used by the client. -/
inductive Method where
  | GET
  | POST
  deriving DecidableEq, Repr

/-- JSON values that occur in request bodies. -/
inductive JVal where
  | num (n : Nat)
  | strs (xs : List String)
  deriving DecidableEq, Repr

/-- One request handed to the axios instance: verb, URL relative to the
base URL, query parameters (`config.params`) and JSON body, each field
list in the order the object literal of the source writes it. -/
structure Request where
  method : Method
  path : String
  params : List (String × String)
  body : Option (List (String × JVal))
  deriving DecidableEq, Repr

/-- The constant `API_BASE_URL = 'http://localhost:5000/api'`. -/
def API_BASE_URL : String := "http://localhost:5000/api"

/-- Configuration of the axios instance, `axios.create({...})`. -/
structure AxiosConfig where
  baseURL : String
  timeout : Nat
  headers : List (String × String)
  deriving DecidableEq, Repr

/-- The instance `api = axios.create({ baseURL, timeout: 30000, headers })`. -/
def api : AxiosConfig :=
  { baseURL := API_BASE_URL
    timeout := 30000
    headers := [("Content-Type", "application/json")] }

/-- The absolute URL axios contacts for a request: base URL followed by the
relative path. -/
def Request.url (r : Request) : String := api.baseURL ++ r.path

/-- The call `api.get(url)` or `api.get(url, { params })`. -/
def apiGet (url : String) (params : List (String × String)) : Request :=
  { method := .GET, path := url, params := params, body := none }

/-- The call `api.post(url, data)`. -/
def apiPost (url : String) (data : List (String × JVal)) : Request :=
  { method := .POST, path := url, params := [], body := some data }

/-- An axios response; only `data` is read by the client. -/
structure Response (δ : Type) where
  status : Nat
  data : δ

/-- The transport: settlement of the HTTP call for each request. -/
abbrev Http (ε δ : Type) := Request → Except ε (Response δ)

/-- Observable side effects of the client. -/
structure Trace where
  requests : List Request
  console : List String
  deriving DecidableEq, Repr

/-- An `async` function body: runs against a trace, extends it, settles. -/
abbrev Async (ε α : Type) := Trace → Trace × Except ε α

/-- Awaiting `api.<verb>(...)`: send the request, settle as the transport does. -/
def awaitHttp {ε δ : Type} (http : Http ε δ) (req : Request) : Async ε (Response δ) :=
  fun t => ({ t with requests := t.requests ++ [req] }, http req)

/-- The call `console.error(msg, error)`; the logged line is recorded. -/
def consoleError {ε : Type} (msg : String) : Async ε Unit :=
  fun t => ({ t with console := t.console ++ [msg] }, .ok ())

/-- Sequencing of `await`s. -/
def Async.bind {ε α β : Type} (m : Async ε α) (f : α → Async ε β) : Async ε β :=
  fun t =>
    match m t with
    | (t1, .ok a) => f a t1
    | (t1, .error e) => (t1, .error e)

/-- The statement `return v`. -/
def Async.ret {ε α : Type} (a : α) : Async ε α := fun t => (t, .ok a)

/-- The statement `throw e`. -/
def Async.throw {ε α : Type} (e : ε) : Async ε α := fun t => (t, .error e)

/-- The statement `try { body } catch (error) { handler(error) }`. -/
def Async.tryCatch {ε α : Type} (body : Async ε α) (handler : ε → Async ε α) : Async ε α :=
  fun t =>
    match body t with
    | (t1, .ok a) => (t1, .ok a)
    | (t1, .error e) => handler e t1

/-- The shape shared by all eight exported functions:
`try { const response = await <call>; return response.data; }
 catch (error) { console.error(msg, error); throw error; }`. -/
def request {ε δ : Type} (http : Http ε δ) (req : Request) (msg : String) : Async ε δ :=
  Async.tryCatch
    (Async.bind (awaitHttp http req) fun response => Async.ret response.data)
    (fun error => Async.bind (consoleError msg) fun _ => Async.throw error)

/-- Request of `getAllStocks`: `api.get('/stocks')`. -/
def getAllStocksReq : Request := apiGet "/stocks" []

/-- Request of `getStockDetail`: the template literal "/stocks/" followed by
the symbol. -/
def getStockDetailReq (symbol : String) : Request :=
  apiGet ("/stocks/" ++ symbol) []

/-- Request of `getStockHistory(symbol, period = '1y', interval = '1d')`;
an omitted (`undefined`) argument is `none` and takes the default. -/
def getStockHistoryReq (symbol : String) (period : Option String := none)
    (interval : Option String := none) : Request :=
  let period := period.getD "1y"
  let interval := interval.getD "1d"
  apiGet ("/stocks/" ++ symbol ++ "/history") [("period", period), ("interval", interval)]

/-- Request of `getStockIntraday`. -/
def getStockIntradayReq (symbol : String) : Request :=
  apiGet ("/stocks/" ++ symbol ++ "/intraday") []

/-- Request of `getMultipleStocks`: `api.post('/stocks/batch', { symbols })`. -/
def getMultipleStocksReq (symbols : List String) : Request :=
  apiPost "/stocks/batch" [("symbols", .strs symbols)]

/-- Request of `predictStock(symbol, days = 7)`. -/
def predictStockReq (symbol : String) (days : Option Nat := none) : Request :=
  let days := days.getD 7
  apiPost ("/predict/" ++ symbol) [("days", .num days)]

/-- Request of `predictMultipleStocks(symbols, days = 7)`. -/
def predictMultipleStocksReq (symbols : List String) (days : Option Nat := none) : Request :=
  let days := days.getD 7
  apiPost "/predict/batch" [("symbols", .strs symbols), ("days", .num days)]

/-- Request of `healthCheck`: `api.get('/health')`. -/
def healthCheckReq : Request := apiGet "/health" []

section Client
variable {ε δ : Type} (http : Http ε δ)

def getAllStocks : Async ε δ :=
  request http getAllStocksReq "Error fetching stocks:"

def getStockDetail (symbol : String) : Async ε δ :=
  request http (getStockDetailReq symbol) ("Error fetching " ++ symbol ++ " details:")

def getStockHistory (symbol : String) (period : Option String := none)
    (interval : Option String := none) : Async ε δ :=
  request http (getStockHistoryReq symbol period interval)
    ("Error fetching " ++ symbol ++ " history:")

def getStockIntraday (symbol : String) : Async ε δ :=
  request http (getStockIntradayReq symbol) ("Error fetching " ++ symbol ++ " intraday data:")

def getMultipleStocks (symbols : List String) : Async ε δ :=
  request http (getMultipleStocksReq symbols) "Error fetching multiple stocks:"

def predictStock (symbol : String) (days : Option Nat := none) : Async ε δ :=
  request http (predictStockReq symbol days) ("Error predicting " ++ symbol ++ ":")

def predictMultipleStocks (symbols : List String) (days : Option Nat := none) : Async ε δ :=
  request http (predictMultipleStocksReq symbols days) "Error predicting multiple stocks:"

def healthCheck : Async ε δ :=
  request http healthCheckReq "Backend health check failed:"

end Client

/-- The functions exported by name from `api.js`, with the arguments of one
call. -/
inductive ApiCall where
  | getAllStocks
  | getStockDetail (symbol : String)
  | getStockHistory (symbol : String) (period interval : Option String)
  | getStockIntraday (symbol : String)
  | getMultipleStocks (symbols : List String)
  | predictStock (symbol : String) (days : Option Nat)
  | predictMultipleStocks (symbols : List String) (days : Option Nat)
  | healthCheck
  deriving DecidableEq, Repr

/-- Running one call of an exported function. -/
def ApiCall.run {ε δ : Type} (http : Http ε δ) : ApiCall → Async ε δ
  | .getAllStocks => Rialo.getAllStocks http
  | .getStockDetail s => Rialo.getStockDetail http s
  | .getStockHistory s p i => Rialo.getStockHistory http s p i
  | .getStockIntraday s => Rialo.getStockIntraday http s
  | .getMultipleStocks xs => Rialo.getMultipleStocks http xs
  | .predictStock s d => Rialo.predictStock http s d
  | .predictMultipleStocks xs d => Rialo.predictMultipleStocks http xs d
  | .healthCheck => Rialo.healthCheck http

/-- The HTTP request a call hands to axios. -/
def ApiCall.req : ApiCall → Request
  | .getAllStocks => getAllStocksReq
  | .getStockDetail s => getStockDetailReq s
  | .getStockHistory s p i => getStockHistoryReq s p i
  | .getStockIntraday s => getStockIntradayReq s
  | .getMultipleStocks xs => getMultipleStocksReq xs
  | .predictStock s d => predictStockReq s d
  | .predictMultipleStocks xs d => predictMultipleStocksReq xs d
  | .healthCheck => healthCheckReq

/-- Names of the functions exported from `api.js` (`export const ...`). -/
inductive ApiFn where
  | getAllStocks
  | getStockDetail
  | getStockHistory
  | getStockIntraday
  | getMultipleStocks
  | predictStock
  | predictMultipleStocks
  | healthCheck
  deriving DecidableEq, Repr, Fintype

/-- The exported function a call invokes. -/
def ApiCall.fn : ApiCall → ApiFn
  | .getAllStocks => .getAllStocks
  | .getStockDetail _ => .getStockDetail
  | .getStockHistory _ _ _ => .getStockHistory
  | .getStockIntraday _ => .getStockIntraday
  | .getMultipleStocks _ => .getMultipleStocks
  | .predictStock _ _ => .predictStock
  | .predictMultipleStocks _ _ => .predictMultipleStocks
  | .healthCheck => .healthCheck

/-- Two calls hit the same endpoint: same verb and same path, compared as
the url strings handed to axios. The browser's URL parser rewrites a url
before it is sent (dot segments, "?" and "#" delimiters, percent-encoding);
for symbols that are `UrlSafe` it leaves the path as written, so there the
comparison is the one of the requests sent. -/
def sameEndpoint (a b : ApiCall) : Prop :=
  a.req.method = b.req.method ∧ a.req.path = b.req.path

instance (a b : ApiCall) : Decidable (sameEndpoint a b) := by
  unfold sameEndpoint; infer_instance

/-- Characters a URL path segment carries unchanged: ASCII letters and
digits, hyphen, underscore, dot and tilde (the unreserved characters). -/
def urlSafeChar (c : Char) : Bool :=
  c.isAlphanum || c == '-' || c == '_' || c == '.' || c == '~'

/-- A symbol the URL parser sends as written when it is spliced into a path:
not empty, unreserved characters only, and not a dot segment ("." or ".."). -/
def UrlSafe (s : String) : Prop :=
  s.data.all urlSafeChar = true ∧ s ≠ "" ∧ s ≠ "." ∧ s ≠ ".."

instance (s : String) : Decidable (UrlSafe s) := by
  unfold UrlSafe; infer_instance

/-- Side condition on the arguments of a call: every symbol spliced into a
path is `UrlSafe`, and the symbol given to `predictStock` is not the word
"batch". -/
def ApiCall.urlSafe : ApiCall → Prop
  | .getStockDetail s => UrlSafe s
  | .getStockHistory s _ _ => UrlSafe s
  | .getStockIntraday s => UrlSafe s
  | .predictStock s _ => UrlSafe s ∧ s ≠ "batch"
  | _ => True

instance (c : ApiCall) : Decidable c.urlSafe := by
  cases c <;> unfold ApiCall.urlSafe <;> infer_instance

/-- What keeps the url strings themselves apart: the symbol given to
`getStockDetail` has no slash, the symbol given to `predictStock` is not
the word "batch". -/
def ApiCall.plain : ApiCall → Prop
  | .getStockDetail s => '/' ∉ s.data
  | .predictStock s _ => s ≠ "batch"
  | _ => True

instance (c : ApiCall) : Decidable c.plain := by
  cases c <;> unfold ApiCall.plain <;> infer_instance

/-- The empty trace a call starts from. -/
def Trace.empty : Trace := { requests := [], console := [] }

/-! ## Payloads exchanged with the backend -/

/-- Stock summary, an element of `response.stocks`. -/
structure Stock where
  symbol : String
  name : String
  deriving DecidableEq, Repr

/-- Stock detail, `detailResponse.data`; JSON numbers are rationals. -/
structure StockDetail where
  symbol : String
  name : String
  currentPrice : ℚ
  previousClose : ℚ
  change : ℚ
  changePercent : ℚ
  deriving DecidableEq, Repr

/-- Historical point, an element of `historyResponse.data`: the date is the
JSON string the backend sent. -/
structure HistoricalPoint where
  date : String
  close : ℚ
  deriving DecidableEq, Repr

/-- The `predictions` object of a prediction result. -/
structure Horizons where
  tomorrow : ℚ
  threeDay : ℚ
  nextWeek : ℚ
  deriving DecidableEq, Repr

/-- Prediction result, `response.data` of `predictStock`. -/
structure Prediction where
  predictions : Horizons
  trend : String
  confidence : ℚ
  recommendation : String
  allPredictions : Option (List ℚ)
  deriving DecidableEq, Repr

/-- Body of the `getAllStocks` answer. -/
structure StocksResponse where
  success : Bool
  stocks : List Stock
  deriving DecidableEq, Repr

/-- Body of the `getStockDetail` answer. -/
structure DetailResponse where
  success : Bool
  data : Option StockDetail
  deriving DecidableEq, Repr

/-- Body of the `getStockHistory` answer. -/
structure HistoryResponse where
  success : Bool
  data : Option (List HistoricalPoint)
  deriving DecidableEq, Repr

/-- Body of the `predictStock` answer. -/
structure PredictResponse where
  success : Bool
  data : Option Prediction
  error : Option String
  deriving DecidableEq, Repr

/-! ## `components/dashboard/StockChart.jsx` -/

/-- The parts of the JavaScript `Date` builtin the chart uses. A time value
is a number of milliseconds; `none` is an Invalid Date.
* `parse s` is the time value of `new Date(s)`;
* `addDays t n` is the date after `d.setDate(d.getDate() + n)` on a valid
  date `d` of time value `t` (local calendar days): `none`, an Invalid Date,
  when the result leaves the range of time values;
* `toLocaleDateString` is the 'en-US' short month and day label;
* `toISOString` is defined on valid dates only (it throws on an invalid one). -/
structure DateLib where
  parse : String → Option Int
  addDays : Int → Nat → Option Int
  toLocaleDateString : Option Int → String
  toISOString : Int → String

/-- The cut-off of a time range button: `now.getTime() - N * 24 * 60 * 60 * 1000`
for the five bounded ranges, no cut-off in the `default` branch. -/
def startDate (now : Int) : String → Option Int
  | "1W" => some (now - 7 * 24 * 60 * 60 * 1000)
  | "1M" => some (now - 30 * 24 * 60 * 60 * 1000)
  | "3M" => some (now - 90 * 24 * 60 * 60 * 1000)
  | "6M" => some (now - 180 * 24 * 60 * 60 * 1000)
  | "1Y" => some (now - 365 * 24 * 60 * 60 * 1000)
  | _ => none

/-- The comparison `new Date(item.date) >= startDate`: false when the item
date is invalid (NaN compares false). -/
def onOrAfter (lib : DateLib) (start : Int) (item : HistoricalPoint) : Bool :=
  match lib.parse item.date with
  | some t => decide (start ≤ t)
  | none => false

/-- The function `getFilteredData` of `StockChart`, with the props `data`
(possibly missing), the state `timeRange` and the clock reading `now`. -/
def getFilteredData (lib : DateLib) (now : Int) (timeRange : String)
    (data : Option (List HistoricalPoint)) : List HistoricalPoint :=
  match data with
  | none => []
  | some data =>
    if data.length = 0 then []
    else
      match startDate now timeRange with
      | none => data
      | some start => data.filter (onOrAfter lib start)

/-- One point handed to the line chart. -/
structure ChartEntry where
  date : String
  price : Option ℚ
  prediction : Option ℚ
  fullDate : String
  deriving DecidableEq, Repr

/-- The mapping of a historical point: `{ date, price: item.close, fullDate: item.date }`. -/
def historyEntry (lib : DateLib) (item : HistoricalPoint) : ChartEntry :=
  { date := lib.toLocaleDateString (lib.parse item.date)
    price := some item.close
    prediction := none
    fullDate := item.date }

/-- The date the predictions are counted from,
`new Date(filteredData[filteredData.length - 1]?.date || new Date())`:
the last point's date when there is one and the string is not empty,
else the clock. -/
def lastDate (lib : DateLib) (now : Int) (filteredData : List HistoricalPoint) : Option Int :=
  match filteredData.getLast? with
  | some item => if item.date ≠ "" then lib.parse item.date else some now
  | none => some now

/-- The entry pushed for the prediction at `index`: `predDate` is a copy of
`lastDate` moved by `setDate(getDate() + index + 1)`, invalid when
`lastDate` is or when the move leaves the range; `toISOString` throws a
RangeError on an invalid date. -/
def predictionEntry (lib : DateLib) (last : Option Int) (index : Nat) (price : ℚ) :
    Except String ChartEntry :=
  let predDate : Option Int := last.bind fun t => lib.addDays t (index + 1)
  match predDate with
  | none => .error "RangeError: Invalid time value"
  | some d =>
    .ok { date := lib.toLocaleDateString (some d)
          price := none
          prediction := some price
          fullDate := lib.toISOString d }

/-- The loop `prediction.allPredictions.forEach((price, index) => chartData.push(...))`,
started at `index`. -/
def pushPredictions (lib : DateLib) (last : Option Int) :
    List ℚ → Nat → List ChartEntry → Except String (List ChartEntry)
  | [], _, chartData => .ok chartData
  | price :: rest, index, chartData =>
    match predictionEntry lib last index price with
    | .error e => .error e
    | .ok entry => pushPredictions lib last rest (index + 1) (chartData ++ [entry])

/-- The array `chartData` of `StockChart`: the mapped history, then the
pushed predictions when `prediction && prediction.allPredictions`. -/
def chartData (lib : DateLib) (now : Int) (filteredData : List HistoricalPoint)
    (prediction : Option Prediction) : Except String (List ChartEntry) :=
  let chartData := filteredData.map (historyEntry lib)
  match prediction with
  | none => .ok chartData
  | some prediction =>
    match prediction.allPredictions with
    | none => .ok chartData
    | some allPredictions =>
      pushPredictions lib (lastDate lib now filteredData) allPredictions 0 chartData

/-! ## `components/dashboard/StockList.jsx` -/

/-- The method `String.prototype.includes`: some suffix of `s` starts with
`t`. (On well-formed strings the substring relation is the same on UTF-16
units and on code points.) -/
def includes (s t : String) : Bool :=
  s.data.tails.any fun suffix => t.data.isPrefixOf suffix

/-- The array `filteredStocks` of `StockList`. The builtin
`String.prototype.toLowerCase` (Unicode lower-casing) is a parameter. -/
def filteredStocks (toLowerCase : String → String) (stocks : List Stock)
    (searchTerm : String) : List Stock :=
  stocks.filter fun stock =>
    includes (toLowerCase stock.symbol) (toLowerCase searchTerm) ||
    includes (toLowerCase stock.name) (toLowerCase searchTerm)

/-- What `StockList` renders below the search box: one item per filtered
stock, and the "No stocks found" notice when `filteredStocks.length === 0`. -/
structure StockListView where
  items : List Stock
  noResults : Bool
  deriving DecidableEq, Repr

/-- Render of `StockList`. -/
def StockList.render (toLowerCase : String → String) (stocks : List Stock)
    (searchTerm : String) : StockListView :=
  { items := filteredStocks toLowerCase stocks searchTerm
    noResults := decide ((filteredStocks toLowerCase stocks searchTerm).length = 0) }

/-- Contains as a substring, ignoring letter case: the lower-cased needle is
an infix of the lower-cased text. -/
def ContainsIgnoringCase (toLowerCase : String → String) (text needle : String) : Prop :=
  (toLowerCase needle).data <:+: (toLowerCase text).data

instance (toLowerCase : String → String) (text needle : String) :
    Decidable (ContainsIgnoringCase toLowerCase text needle) := by
  unfold ContainsIgnoringCase; infer_instance

/-- A sample lower-casing for concrete checks: what `toLowerCase` does on
strings of ASCII characters. -/
def asciiLower (s : String) : String := String.mk (s.data.map Char.toLower)

/-! ## `components/dashboard/PredictionCard.jsx` -/

/-- The function `getConfidenceColor`. -/
def getConfidenceColor (confidence : ℚ) : String :=
  if confidence ≥ 80 then "high"
  else if confidence ≥ 60 then "medium"
  else "low"

/-- Order of the confidence classes: low, then medium, then high. -/
def confidenceRank : String → Nat
  | "high" => 2
  | "medium" => 1
  | _ => 0

/-- The three conditional blocks of the card. -/
inductive CardView where
  | prompt
  | loading
  | results
  deriving DecidableEq, Repr

/-- The blocks the card renders, one conditional after the other:
`!prediction && !predicting`, `predicting`, `prediction && !predicting`. -/
def PredictionCard.views (prediction : Option Prediction) (predicting : Bool) : List CardView :=
  (if prediction.isNone && !predicting then [.prompt] else []) ++
  (if predicting then [.loading] else []) ++
  (if prediction.isSome && !predicting then [.results] else [])

/-- The `error-message` elements the card renders: `error && ...` inside the
prompt block only; an empty string is falsy. -/
def PredictionCard.errorMessages (prediction : Option Prediction) (predicting : Bool)
    (error : Option String) : List String :=
  if prediction.isNone && !predicting then
    match error with
    | some e => if e ≠ "" then [e] else []
    | none => []
  else []

/-- The options of the period select. -/
def dayOptions : List Nat := [1, 3, 7, 14, 30]

/-- The expression `a || b` on a possibly missing string: `b` when `a` is
missing or empty. -/
def orElse (a : Option String) (b : String) : String :=
  match a with
  | some x => if x ≠ "" then x else b
  | none => b

/-- Calls `handlePredict` makes on its props and its own state setters. -/
inductive CardAction where
  | setPredicting (value : Bool)
  | setError (value : Option String)
  | onPredict (data : Option Prediction)
  | consoleError (msg : String)
  deriving DecidableEq, Repr

/-- The part of `handlePredict` before `await predictStock(symbol, days)`. -/
def handlePredict_begin : List CardAction :=
  [.setPredicting true, .setError none]

/-- The part of `handlePredict` after the `await`, for each settlement of
`predictStock`: the `try` branch, the `catch` branch, then `finally`. -/
def handlePredict_settle (r : Except String PredictResponse) : List CardAction :=
  (match r with
    | .ok response =>
      if response.success then [.onPredict response.data]
      else [.setError (some (orElse response.error "Failed to generate prediction"))]
    | .error _ =>
      [.setError (some "Failed to connect to prediction service. Please try again."),
       .consoleError "Prediction error:"])
  ++ [.setPredicting false]

/-! ## `pages/Dashboard.jsx` -/

/-- An `await` in flight, with the argument its function was called with. -/
inductive Pending where
  | stocks
  | detail (symbol : Option String)
  | history (symbol : Option String)
  | predict (symbol : Option String) (days : Nat)
  deriving DecidableEq, Repr

/-- State of the page: the seven `useState` cells of `Dashboard`, the two of
`PredictionCard` (`days`, `error`), the awaits in flight, and the log of
requests sent and console lines written. -/
structure State where
  stocks : List Stock
  selectedStock : Option String
  stockDetail : Option StockDetail
  historicalData : Option (List HistoricalPoint)
  loading : Bool
  prediction : Option Prediction
  predicting : Bool
  days : Nat
  error : Option String
  pending : List Pending
  requests : List Request
  console : List String
  deriving DecidableEq, Repr

/-- The initial values of the `useState` cells. -/
def State.initial : State :=
  { stocks := []
    selectedStock := none
    stockDetail := none
    historicalData := some []
    loading := true
    prediction := none
    predicting := false
    days := 7
    error := none
    pending := []
    requests := []
    console := [] }

/-- A possibly null symbol spliced into a template literal. -/
def templ (symbol : Option String) : String := symbol.getD "null"

/-- The part of `fetchStocks` before `await getAllStocks()`. -/
def fetchStocks_begin (s : State) : State :=
  { s with
    loading := true
    requests := s.requests ++ [getAllStocksReq]
    pending := s.pending ++ [.stocks] }

/-- The part of `fetchStocks` after the `await`, for each settlement of
`getAllStocks`; a rejection is logged by `getAllStocks` and again here. -/
def fetchStocks_settle (r : Except String StocksResponse) (s : State) : State :=
  let s1 :=
    match r with
    | .ok response =>
      if response.success then
        let s2 := { s with stocks := response.stocks }
        if response.stocks.length > 0 then
          { s2 with selectedStock := response.stocks.head?.map Stock.symbol }
        else s2
      else s
    | .error _ =>
      { s with console := s.console ++ ["Error fetching stocks:", "Error fetching stocks:"] }
  { s1 with loading := false }

/-- The part of `fetchStockDetails(symbol)` before `await getStockDetail(symbol)`. -/
def fetchStockDetails_begin (symbol : Option String) (s : State) : State :=
  { s with
    loading := true
    prediction := none
    requests := s.requests ++ [getStockDetailReq (templ symbol)]
    pending := s.pending ++ [.detail symbol] }

/-- The part of `fetchStockDetails` between the two `await`s, for each
settlement of `getStockDetail`. -/
def fetchStockDetails_detail (symbol : Option String) (r : Except String DetailResponse)
    (s : State) : State :=
  match r with
  | .ok detailResponse =>
    let s1 := if detailResponse.success then { s with stockDetail := detailResponse.data } else s
    { s1 with
      requests := s1.requests ++ [getStockHistoryReq (templ symbol) (some "1y") (some "1d")]
      pending := s1.pending ++ [.history symbol] }
  | .error _ =>
    { s with
      console := s.console ++
        ["Error fetching " ++ templ symbol ++ " details:", "Error fetching stock details:"]
      loading := false }

/-- The part of `fetchStockDetails` after the second `await`, for each
settlement of `getStockHistory`. -/
def fetchStockDetails_history (symbol : Option String) (r : Except String HistoryResponse)
    (s : State) : State :=
  match r with
  | .ok historyResponse =>
    let s1 :=
      if historyResponse.success then { s with historicalData := historyResponse.data } else s
    { s1 with loading := false }
  | .error _ =>
    { s with
      console := s.console ++
        ["Error fetching " ++ templ symbol ++ " history:", "Error fetching stock details:"]
      loading := false }

/-- The function `handleStockSelect`. -/
def handleStockSelect (symbol : String) (s : State) : State :=
  { s with selectedStock := some symbol }

/-- The effect `useEffect(() => { if (selectedStock) fetchStockDetails(selectedStock) },
[selectedStock])`, run after a render whose `selectedStock` differs from the
previous one `prev`. -/
def selectedStockEffect (prev : Option String) (s : State) : State :=
  if s.selectedStock = prev then s
  else
    match s.selectedStock with
    | some symbol => if symbol ≠ "" then fetchStockDetails_begin (some symbol) s else s
    | none => s

/-- The wiring of the card in `Dashboard`: `onPredict={setPrediction}`,
`setPredicting={setPredicting}`; `setError` is the card's own cell. -/
def applyCard (s : State) : CardAction → State
  | .setPredicting value => { s with predicting := value }
  | .setError value => { s with error := value }
  | .onPredict data => { s with prediction := data }
  | .consoleError msg => { s with console := s.console ++ [msg] }

/-- A click on "Generate Prediction" or "Regenerate": `handlePredict` up to
its `await`, with the props `symbol={selectedStock}` and the cell `days`. -/
def handlePredict_click (s : State) : State :=
  let s1 := handlePredict_begin.foldl applyCard s
  { s1 with
    requests := s1.requests ++ [predictStockReq (templ s.selectedStock) (some s.days)]
    pending := s1.pending ++ [.predict s.selectedStock s.days] }

/-- The rest of `handlePredict` once `predictStock` has settled; a rejection
is first logged by `predictStock` itself. -/
def handlePredict_done (symbol : Option String) (r : Except String PredictResponse)
    (s : State) : State :=
  let s1 :=
    match r with
    | .ok _ => s
    | .error _ => { s with console := s.console ++ ["Error predicting " ++ templ symbol ++ ":"] }
  (handlePredict_settle r).foldl applyCard s1

/-- The page shows the dashboard, not the "Loading dashboard..." screen:
the early return is taken when `loading && !stockDetail`. -/
def State.dashboardShown (s : State) : Bool := !(s.loading && s.stockDetail.isNone)

/-- The card is mounted: the dashboard is shown and `stockDetail` is set. -/
def State.cardShown (s : State) : Bool := s.dashboardShown && s.stockDetail.isSome

/-- What can happen to the page: a request settles, or the user acts. -/
inductive Event where
  | stocksSettled (r : Except String StocksResponse)
  | detailSettled (symbol : Option String) (r : Except String DetailResponse)
  | historySettled (symbol : Option String) (r : Except String HistoryResponse)
  | predictSettled (symbol : Option String) (days : Nat) (r : Except String PredictResponse)
  | selectStock (symbol : String)
  | refresh
  | changeDays (value : Nat)
  | clickPredict

/-- The handler an event runs, `none` when the event cannot happen in `s`:
a settlement needs its `await` in flight; a click needs its control on
screen (a list item of a loaded stock, the refresh button, the period
select of the prompt block, a predict button of the prompt or results
block). -/
def handle (s : State) : Event → Option State
  | .stocksSettled r =>
    if .stocks ∈ s.pending then
      some (fetchStocks_settle r { s with pending := s.pending.erase .stocks })
    else none
  | .detailSettled symbol r =>
    if .detail symbol ∈ s.pending then
      some (fetchStockDetails_detail symbol r
        { s with pending := s.pending.erase (.detail symbol) })
    else none
  | .historySettled symbol r =>
    if .history symbol ∈ s.pending then
      some (fetchStockDetails_history symbol r
        { s with pending := s.pending.erase (.history symbol) })
    else none
  | .predictSettled symbol days r =>
    if .predict symbol days ∈ s.pending then
      some (handlePredict_done symbol r
        { s with pending := s.pending.erase (.predict symbol days) })
    else none
  | .selectStock symbol =>
    if s.dashboardShown ∧ symbol ∈ s.stocks.map Stock.symbol then
      some (handleStockSelect symbol s)
    else none
  | .refresh =>
    if s.dashboardShown then some (fetchStockDetails_begin s.selectedStock s) else none
  | .changeDays value =>
    if s.cardShown ∧ s.prediction.isNone ∧ s.predicting = false ∧ value ∈ dayOptions then
      some { s with days := value }
    else none
  | .clickPredict =>
    if s.cardShown ∧ s.predicting = false then some (handlePredict_click s) else none

/-- One step of the page: the event's handler, then the effect on
`selectedStock`. -/
def step (s : State) (e : Event) : Option State :=
  (handle s e).map (selectedStockEffect s.selectedStock)

/-- The page after a sequence of events, `none` if one of them cannot happen. -/
def run (s : State) : List Event → Option State
  | [] => some s
  | e :: es =>
    match step s e with
    | some s1 => run s1 es
    | none => none

/-- The page after its first render: the mount effect has called
`fetchStocks()`; the effect on `selectedStock` found it null. -/
def State.mounted : State := fetchStocks_begin State.initial

/-- The inline error messages on screen: those of the card when it is
mounted; `Dashboard`, `StockList` and `StockChart` render none. -/
def State.errorMessages (s : State) : List String :=
  if s.cardShown then PredictionCard.errorMessages s.prediction s.predicting s.error else []

/-! ## Specification-side notions -/

/-- Milliseconds in a day. -/
def msPerDay : Int := 86400000

/-- The list `result` is exactly the items of `data` dated at or after
`cutoff`, in their original order: it is the order-preserving selection of
those items; stated also as a sub-sequence with a membership test. -/
def KeepsFrom (lib : DateLib) (cutoff : Int) (data result : List HistoricalPoint) : Prop :=
  result = data.filter (fun item =>
      match lib.parse item.date with
      | some t => decide (cutoff ≤ t)
      | none => false)
  ∧ result.Sublist data
  ∧ ∀ item, item ∈ result ↔ item ∈ data ∧ ∃ t, lib.parse item.date = some t ∧ cutoff ≤ t

/-- The date predictions are counted from, in the words of the chart's
description: the (valid, non-empty) date of the last point of the history,
or the clock when the history is empty. -/
def BaseDate (lib : DateLib) (now : Int) (h : List HistoricalPoint) (t : Int) : Prop :=
  match h.getLast? with
  | none => t = now
  | some item => item.date ≠ "" ∧ lib.parse item.date = some t

instance (lib : DateLib) (now : Int) (h : List HistoricalPoint) (t : Int) :
    Decidable (BaseDate lib now h t) := by
  unfold BaseDate; split <;> infer_instance

/-- The entry expected for a predicted price dated `d`. -/
def expectedPrediction (lib : DateLib) (d : Int) (price : ℚ) : ChartEntry :=
  { date := lib.toLocaleDateString (some d)
    price := none
    prediction := some price
    fullDate := lib.toISOString d }

/-- The expected prediction entries for the prices `q`, the first at position
`k`, the one at position `i` dated `dates i`. -/
def expectedPredictions (lib : DateLib) (dates : Nat → Int) : List ℚ → Nat → List ChartEntry
  | [], _ => []
  | price :: rest, k =>
    expectedPrediction lib (dates k) price :: expectedPredictions lib dates rest (k + 1)

/-- The largest time value of a `Date`, 8.64e15 milliseconds. -/
def maxTime : Int := 8640000000000000

/-- A sample `Date` for concrete checks: three known date strings (the last
is the largest valid date), every other string invalid; a calendar day is
`msPerDay` milliseconds (no clock changes); a move past the largest time
value gives an Invalid Date. -/
def DateLib.sample : DateLib :=
  { parse := fun s =>
      if s = "2024-01-01" then some 1704067200000
      else if s = "2024-01-02" then some 1704153600000
      else if s = "+275760-09-13T00:00:00.000Z" then some maxTime
      else none
    addDays := fun t n => if t + n * msPerDay ≤ maxTime then some (t + n * msPerDay) else none
    toLocaleDateString := fun _ => "label"
    toISOString := fun _ => "iso" }

/-- The settlement of a request is a failure: a rejection (transport error)
or an answer with `success: false`. -/
def Event.isFailure : Event → Bool
  | .stocksSettled (.error _) => true
  | .stocksSettled (.ok response) => !response.success
  | .detailSettled _ (.error _) => true
  | .detailSettled _ (.ok response) => !response.success
  | .historySettled _ (.error _) => true
  | .historySettled _ (.ok response) => !response.success
  | .predictSettled _ _ (.error _) => true
  | .predictSettled _ _ (.ok response) => !response.success
  | _ => false

/-- A request is a prediction request carrying one of the select's options. -/
def IsPredictRequest (r : Request) : Prop :=
  ∃ symbol d, r = predictStockReq symbol (some d) ∧ d ∈ dayOptions ∧ 1 ≤ d ∧ d ≤ 30

/-- Invariant of the page: `days` is one of the select's options, and every
POST request sent so far is a prediction request carrying one of them. -/
def DaysInv (s : State) : Prop :=
  s.days ∈ dayOptions ∧ ∀ r ∈ s.requests, r.method = .POST → IsPredictRequest r

/-! ## Sample data for concrete runs -/

/-- Three listed stocks. -/
def sampleStocks : List Stock :=
  [⟨"MSFT", "Microsoft"⟩, ⟨"AAPL", "Apple Inc."⟩, ⟨"GOOG", "Alphabet"⟩]

/-- Detail answer for a symbol. -/
def sampleDetail (symbol : String) (price : ℚ) : StockDetail :=
  { symbol := symbol, name := symbol, currentPrice := price, previousClose := price,
    change := 0, changePercent := 0 }

/-- History answer: one point. -/
def sampleHistory (close : ℚ) : List HistoricalPoint := [⟨"2024-01-01", close⟩]

/-- Prediction answer. -/
def samplePrediction (price : ℚ) : Prediction :=
  { predictions := ⟨price, price, price⟩, trend := "bullish", confidence := 80,
    recommendation := "hold", allPredictions := some [price] }

/-- The run of the out-of-order completion: MSFT is loaded; the user selects
AAPL, then GOOG; GOOG's detail and history arrive; AAPL's arrive last. -/
def raceRun : List Event :=
  [ .stocksSettled (.ok ⟨true, sampleStocks⟩),
    .detailSettled (some "MSFT") (.ok ⟨true, some (sampleDetail "MSFT" 300)⟩),
    .historySettled (some "MSFT") (.ok ⟨true, some (sampleHistory 300)⟩),
    .selectStock "AAPL",
    .selectStock "GOOG",
    .detailSettled (some "GOOG") (.ok ⟨true, some (sampleDetail "GOOG" 200)⟩),
    .historySettled (some "GOOG") (.ok ⟨true, some (sampleHistory 200)⟩),
    .detailSettled (some "AAPL") (.ok ⟨true, some (sampleDetail "AAPL" 100)⟩),
    .historySettled (some "AAPL") (.ok ⟨true, some (sampleHistory 100)⟩) ]

/-- The run of the stale prediction: MSFT is loaded; the user asks for a
prediction, selects AAPL while it is in flight; the MSFT prediction arrives. -/
def stalePredictionRun : List Event :=
  [ .stocksSettled (.ok ⟨true, sampleStocks⟩),
    .detailSettled (some "MSFT") (.ok ⟨true, some (sampleDetail "MSFT" 300)⟩),
    .historySettled (some "MSFT") (.ok ⟨true, some (sampleHistory 300)⟩),
    .clickPredict,
    .selectStock "AAPL",
    .predictSettled (some "MSFT") 7 (.ok ⟨true, some (samplePrediction 310), none⟩) ]

/-- The run of a silent failure: the stock list loads, the detail request
of the first stock is rejected. -/
def silentFailureRun : List Event :=
  [ .stocksSettled (.ok ⟨true, sampleStocks⟩),
    .detailSettled (some "MSFT") (.error "Network Error") ]

/-- A page with MSFT loaded, nothing in flight, no prediction held. -/
def sampleLoaded : State :=
  { State.initial with
    stocks := sampleStocks
    selectedStock := some "MSFT"
    stockDetail := some (sampleDetail "MSFT" 300)
    historicalData := some (sampleHistory 300)
    loading := false }

end Rialo

/-! # Theorems -/

namespace Rialo

/-! ## API client -/

/-- Unfolding of the shared function shape: one request is appended, the
transport's settlement decides the result, a rejection logs one line. -/
theorem request_eq {ε δ : Type} (http : Http ε δ) (req : Request) (msg : String) (t : Trace) :
    request http req msg t =
      match http req with
      | .ok r => ({ t with requests := t.requests ++ [req] }, .ok r.data)
      | .error e =>
        ({ requests := t.requests ++ [req], console := t.console ++ [msg] }, .error e) := by
  unfold request Async.tryCatch Async.bind awaitHttp Async.ret consoleError Async.throw
  cases h : http req <;> simp [h]

/-- Every exported function is the shared shape applied to its request. -/
theorem ApiCall.run_requests {ε δ : Type} (http : Http ε δ) (c : ApiCall) (t : Trace) :
    (c.run http t).1.requests = t.requests ++ [c.req] := by
  cases c <;>
    simp only [ApiCall.run, ApiCall.req, Rialo.getAllStocks, Rialo.getStockDetail,
      Rialo.getStockHistory, Rialo.getStockIntraday, Rialo.getMultipleStocks,
      Rialo.predictStock, Rialo.predictMultipleStocks, Rialo.healthCheck, request_eq] <;>
    split <;> rfl

/-- C1: each API client function issues exactly the documented request
(verb, path under the `/api` base, query parameters, JSON body), whatever the
transport answers and whatever was sent before. -/
theorem C1_documented_requests {ε δ : Type} (http : Http ε δ) (t : Trace)
    (s p i : String) (xs : List String) (d : Nat) :
    (getAllStocks http t).1.requests
        = t.requests ++ [⟨.GET, "/stocks", [], none⟩]
    ∧ (getStockDetail http s t).1.requests
        = t.requests ++ [⟨.GET, "/stocks/" ++ s, [], none⟩]
    ∧ (getStockHistory http s (some p) (some i) t).1.requests
        = t.requests ++ [⟨.GET, "/stocks/" ++ s ++ "/history",
            [("period", p), ("interval", i)], none⟩]
    ∧ (getStockIntraday http s t).1.requests
        = t.requests ++ [⟨.GET, "/stocks/" ++ s ++ "/intraday", [], none⟩]
    ∧ (getMultipleStocks http xs t).1.requests
        = t.requests ++ [⟨.POST, "/stocks/batch", [], some [("symbols", .strs xs)]⟩]
    ∧ (predictStock http s (some d) t).1.requests
        = t.requests ++ [⟨.POST, "/predict/" ++ s, [], some [("days", .num d)]⟩]
    ∧ (predictMultipleStocks http xs (some d) t).1.requests
        = t.requests ++ [⟨.POST, "/predict/batch", [],
            some [("symbols", .strs xs), ("days", .num d)]⟩]
    ∧ (healthCheck http t).1.requests
        = t.requests ++ [⟨.GET, "/health", [], none⟩]
    ∧ api.baseURL = "http://localhost:5000/api"
    ∧ ∀ r : Request, r.url = "http://localhost:5000/api" ++ r.path := by
  refine ⟨?_, ?_, ?_, ?_, ?_, ?_, ?_, ?_, rfl, fun _ => rfl⟩
  · exact ApiCall.run_requests http .getAllStocks t
  · exact ApiCall.run_requests http (.getStockDetail s) t
  · exact ApiCall.run_requests http (.getStockHistory s (some p) (some i)) t
  · exact ApiCall.run_requests http (.getStockIntraday s) t
  · exact ApiCall.run_requests http (.getMultipleStocks xs) t
  · exact ApiCall.run_requests http (.predictStock s (some d)) t
  · exact ApiCall.run_requests http (.predictMultipleStocks xs (some d)) t
  · exact ApiCall.run_requests http .healthCheck t

/-- C2: for every exported function and arguments, the call settles exactly
as the HTTP call does (resolved with `r` gives `r.data`, rejected with `e`
rejects with the same `e`), and it sends exactly one request. -/
theorem C2_passthrough_single_request {ε δ : Type} (http : Http ε δ) (c : ApiCall) (t : Trace) :
    (c.run http t).2 =
        (match http c.req with
         | .ok r => .ok r.data
         | .error e => .error e)
    ∧ (c.run http t).1.requests = t.requests ++ [c.req]
    ∧ (c.run http t).1.requests.length = t.requests.length + 1 := by
  refine ⟨?_, ApiCall.run_requests http c t, ?_⟩
  · cases c <;>
      simp only [ApiCall.run, ApiCall.req, Rialo.getAllStocks, Rialo.getStockDetail,
        Rialo.getStockHistory, Rialo.getStockIntraday, Rialo.getMultipleStocks,
        Rialo.predictStock, Rialo.predictMultipleStocks, Rialo.healthCheck, request_eq] <;>
      split <;> rfl
  · rw [ApiCall.run_requests]; simp

/-- C9: omitted optional arguments take the defaults `'1y'`, `'1d'` and `7`:
the calls with and without them are the same computation, so they send the
same request. -/
theorem C9_defaults {ε δ : Type} (http : Http ε δ) (s : String) (xs : List String) :
    getStockHistory http s = getStockHistory http s (some "1y") (some "1d")
    ∧ predictStock http s = predictStock http s (some 7)
    ∧ predictMultipleStocks http xs = predictMultipleStocks http xs (some 7)
    ∧ (ApiCall.getStockHistory s none none).req
        = (ApiCall.getStockHistory s (some "1y") (some "1d")).req
    ∧ (ApiCall.predictStock s none).req = (ApiCall.predictStock s (some 7)).req
    ∧ (ApiCall.predictMultipleStocks xs none).req
        = (ApiCall.predictMultipleStocks xs (some 7)).req :=
  ⟨rfl, rfl, rfl, rfl, rfl, rfl⟩

/-! ## Endpoint collisions -/

/-- A path starting "/stocks/" is never the bare "/stocks" or "/health". -/
theorem stocks_prefix_data (s : String) :
    ("/stocks/" ++ s).data = '/' :: 's' :: 't' :: 'o' :: 'c' :: 'k' :: 's' :: '/' :: s.data := by
  rw [String.data_append]; rfl

/-- The last two characters of a string ending in "/history". -/
theorem history_suffix (s : String) :
    (("/stocks/" ++ s ++ "/history").data.reverse.take 2) = ['y', 'r'] := by
  simp [String.data_append]

/-- The last two characters of a string ending in "/intraday". -/
theorem intraday_suffix (s : String) :
    (("/stocks/" ++ s ++ "/intraday").data.reverse.take 2) = ['y', 'a'] := by
  simp [String.data_append]

/-- C8 (refuted as stated): the client does not export six functions, and
two distinct functions can hit the same verb and path:
`predictStock('batch')` and `predictMultipleStocks([])` both send
`POST /predict/batch`. -/
theorem C8_counterexample :
    ¬ (Fintype.card ApiFn = 6 ∧
        ∀ a b : ApiCall, a.fn ≠ b.fn → ¬ sameEndpoint a b) := by
  rintro ⟨h, -⟩
  revert h
  decide

/-- C8 (second half refuted on its own): `predictStock('batch', 7)` and
`predictMultipleStocks([], 7)` are distinct functions sending the same verb
and path. -/
theorem predictStock_batch_collision :
    (ApiCall.predictStock "batch" (some 7)).fn ≠ (ApiCall.predictMultipleStocks [] (some 7)).fn
    ∧ sameEndpoint (.predictStock "batch" (some 7)) (.predictMultipleStocks [] (some 7)) := by
  decide

/-- The url strings of two calls of distinct functions differ as soon as the
symbol of `getStockDetail` has no slash and that of `predictStock` is not
"batch". -/
theorem raw_paths_distinct (a b : ApiCall)
    (ha : a.plain) (hb : b.plain) (hab : a.fn ≠ b.fn) : ¬ sameEndpoint a b := by
  rintro ⟨hm, hp⟩
  have hd := congrArg String.data hp
  cases a <;> cases b <;>
    simp only [ApiCall.fn, ApiCall.req, getAllStocksReq, getStockDetailReq, getStockHistoryReq,
      getStockIntradayReq, getMultipleStocksReq, predictStockReq, predictMultipleStocksReq,
      healthCheckReq, apiGet, apiPost, ne_eq, not_true_eq_false, ApiCall.plain,
      reduceCtorEq] at hm hd hab ha hb
  all_goals first
    | (simp [String.data_append] at hd; done)
    | (have h2 := congrArg (fun l => l.reverse.take 2) hd
       simp [String.data_append] at h2
       done)
    | (simp only [String.data_append, List.append_assoc] at hd
       simp at hd
       first
         | (rw [hd] at ha; simp at ha)
         | (rw [← hd] at hb; simp at hb)
         | exact absurd (String.ext hd) ha
         | exact absurd (String.ext hd.symm) ha
         | exact absurd (String.ext hd) hb
         | exact absurd (String.ext hd.symm) hb)

/-- A URL-safe symbol contains no slash. -/
theorem UrlSafe.no_slash {s : String} (h : UrlSafe s) : '/' ∉ s.data := by
  intro hmem
  have := List.all_eq_true.mp h.1 '/' hmem
  revert this
  decide

/-- URL-safe arguments satisfy the condition that keeps the url strings apart. -/
theorem ApiCall.plain_of_urlSafe {c : ApiCall} (h : c.urlSafe) : c.plain := by
  cases c <;> simp only [ApiCall.urlSafe, ApiCall.plain] at h ⊢
  · exact h.no_slash
  · exact h.2

/-- C8 (amended): the client exports exactly eight request functions, and
whenever every symbol spliced into a path is URL-safe (not empty,
unreserved characters only, not "." or "..", so that the request is sent to
the path as written) and the symbol given to `predictStock` is not "batch", two calls
of distinct functions never send the same verb and path. -/
theorem C8_eight_functions_distinct_endpoints (a b : ApiCall)
    (ha : a.urlSafe) (hb : b.urlSafe) (hab : a.fn ≠ b.fn) :
    Fintype.card ApiFn = 8 ∧ ¬ sameEndpoint a b :=
  ⟨by decide, raw_paths_distinct a b (ApiCall.plain_of_urlSafe ha) (ApiCall.plain_of_urlSafe hb) hab⟩

/-- Witness for the amended C8: `getStockDetail('AAPL')` against
`predictStock('BRK.B', 7)`. -/
theorem C8_eight_functions_distinct_endpoints_witness :
    (ApiCall.getStockDetail "AAPL").urlSafe ∧ (ApiCall.predictStock "BRK.B" (some 7)).urlSafe
    ∧ (ApiCall.getStockDetail "AAPL").fn ≠ (ApiCall.predictStock "BRK.B" (some 7)).fn
    ∧ Fintype.card ApiFn = 8
    ∧ ¬ sameEndpoint (.getStockDetail "AAPL") (.predictStock "BRK.B" (some 7)) :=
  ⟨by decide, by decide, by decide,
   C8_eight_functions_distinct_endpoints (.getStockDetail "AAPL")
     (.predictStock "BRK.B" (some 7)) (by decide) (by decide) (by decide)⟩

/-! ## StockChart: time ranges -/

/-- Filtering by `onOrAfter` keeps exactly the items dated at or after the cut-off. -/
theorem keepsFrom_filter (lib : DateLib) (cutoff : Int) (data : List HistoricalPoint) :
    KeepsFrom lib cutoff data (data.filter (onOrAfter lib cutoff)) := by
  refine ⟨rfl, List.filter_sublist data, fun item => ?_⟩
  simp only [List.mem_filter, onOrAfter]
  constructor
  · rintro ⟨hmem, h⟩
    refine ⟨hmem, ?_⟩
    cases hp : lib.parse item.date with
    | none => simp [hp] at h
    | some t => exact ⟨t, rfl, by simpa [hp] using h⟩
  · rintro ⟨hmem, t, hp, hle⟩
    exact ⟨hmem, by simp [hp, hle]⟩

/-- On present data every bounded range filters by its cut-off. -/
theorem getFilteredData_bounded (lib : DateLib) (now : Int) (range : String) (start : Int)
    (data : List HistoricalPoint) (h : startDate now range = some start) :
    getFilteredData lib now range (some data) = data.filter (onOrAfter lib start) := by
  unfold getFilteredData
  by_cases hd : data.length = 0
  · have : data = [] := List.length_eq_zero.mp hd
    simp [this]
  · simp [hd, h]

/-- C10: with range 1W, 1M, 3M, 6M or 1Y, `getFilteredData` returns exactly
the items dated at or after `now` minus 7, 30, 90, 180 or 365 days, in
their original order; with ALL the data unchanged; with missing or empty
data the empty list, whatever the range. -/
theorem C10_getFilteredData (lib : DateLib) (now : Int) (data : List HistoricalPoint)
    (range : String) :
    KeepsFrom lib (now - 7 * msPerDay) data (getFilteredData lib now "1W" (some data))
    ∧ KeepsFrom lib (now - 30 * msPerDay) data (getFilteredData lib now "1M" (some data))
    ∧ KeepsFrom lib (now - 90 * msPerDay) data (getFilteredData lib now "3M" (some data))
    ∧ KeepsFrom lib (now - 180 * msPerDay) data (getFilteredData lib now "6M" (some data))
    ∧ KeepsFrom lib (now - 365 * msPerDay) data (getFilteredData lib now "1Y" (some data))
    ∧ getFilteredData lib now "ALL" (some data) = data
    ∧ getFilteredData lib now range none = []
    ∧ getFilteredData lib now range (some []) = [] := by
  refine ⟨?_, ?_, ?_, ?_, ?_, ?_, rfl, rfl⟩
  · rw [getFilteredData_bounded lib now "1W" (now - 7 * msPerDay) data (by simp [startDate, msPerDay])]
    exact keepsFrom_filter lib _ data
  · rw [getFilteredData_bounded lib now "1M" (now - 30 * msPerDay) data (by simp [startDate, msPerDay])]
    exact keepsFrom_filter lib _ data
  · rw [getFilteredData_bounded lib now "3M" (now - 90 * msPerDay) data (by simp [startDate, msPerDay])]
    exact keepsFrom_filter lib _ data
  · rw [getFilteredData_bounded lib now "6M" (now - 180 * msPerDay) data (by simp [startDate, msPerDay])]
    exact keepsFrom_filter lib _ data
  · rw [getFilteredData_bounded lib now "1Y" (now - 365 * msPerDay) data (by simp [startDate, msPerDay])]
    exact keepsFrom_filter lib _ data
  · unfold getFilteredData
    by_cases hd : data.length = 0
    · have : data = [] := List.length_eq_zero.mp hd
      simp [this]
    · simp [hd, startDate]

/-- A later cut-off keeps a sub-sequence of what an earlier one keeps. -/
theorem filter_onOrAfter_sublist (lib : DateLib) (a b : Int) (hab : b ≤ a)
    (data : List HistoricalPoint) :
    (data.filter (onOrAfter lib a)).Sublist (data.filter (onOrAfter lib b)) := by
  apply List.monotone_filter_right
  intro item h
  unfold onOrAfter at h ⊢
  cases hp : lib.parse item.date with
  | none => simp [hp] at h
  | some t =>
    simp only [hp, decide_eq_true_eq] at h ⊢
    omega

/-- Two bounded ranges with ordered cut-offs give nested results, also on
missing data. -/
theorem getFilteredData_nested (lib : DateLib) (now : Int) (r1 r2 : String) (a b : Int)
    (h1 : startDate now r1 = some a) (h2 : startDate now r2 = some b) (hab : b ≤ a)
    (data : Option (List HistoricalPoint)) :
    (getFilteredData lib now r1 data).Sublist (getFilteredData lib now r2 data) := by
  cases data with
  | none => simp [getFilteredData]
  | some d =>
    rw [getFilteredData_bounded lib now r1 a d h1, getFilteredData_bounded lib now r2 b d h2]
    exact filter_onOrAfter_sublist lib a b hab d

/-- C18: for a fixed clock reading the ranges are nested: the result for 1W
is a sub-sequence of that for 1M, then 3M, 6M, 1Y and ALL. -/
theorem C18_ranges_nested (lib : DateLib) (now : Int) (data : Option (List HistoricalPoint)) :
    (getFilteredData lib now "1W" data).Sublist (getFilteredData lib now "1M" data)
    ∧ (getFilteredData lib now "1M" data).Sublist (getFilteredData lib now "3M" data)
    ∧ (getFilteredData lib now "3M" data).Sublist (getFilteredData lib now "6M" data)
    ∧ (getFilteredData lib now "6M" data).Sublist (getFilteredData lib now "1Y" data)
    ∧ (getFilteredData lib now "1Y" data).Sublist (getFilteredData lib now "ALL" data) := by
  refine ⟨?_, ?_, ?_, ?_, ?_⟩
  · exact getFilteredData_nested lib now "1W" "1M" _ _ rfl rfl (by omega) data
  · exact getFilteredData_nested lib now "1M" "3M" _ _ rfl rfl (by omega) data
  · exact getFilteredData_nested lib now "3M" "6M" _ _ rfl rfl (by omega) data
  · exact getFilteredData_nested lib now "6M" "1Y" _ _ rfl rfl (by omega) data
  · cases data with
    | none => simp [getFilteredData]
    | some d =>
      rw [getFilteredData_bounded lib now "1Y" _ d rfl]
      have hall : getFilteredData lib now "ALL" (some d) = d := by
        unfold getFilteredData
        by_cases hd : d.length = 0
        · have : d = [] := List.length_eq_zero.mp hd
          simp [this]
        · simp [hd, startDate]
      rw [hall]
      exact List.filter_sublist d

/-! ## PredictionCard -/

/-- C13: for every prediction (absent or present) and every value of
`predicting` the card renders exactly one block: the prompt iff there is no
prediction and `predicting` is false, the loading block iff `predicting` is
true, the results iff a prediction is present and `predicting` is false. -/
theorem C13_exactly_one_view (prediction : Option Prediction) (predicting : Bool) :
    (PredictionCard.views prediction predicting).length = 1
    ∧ (CardView.prompt ∈ PredictionCard.views prediction predicting
        ↔ prediction = none ∧ predicting = false)
    ∧ (CardView.loading ∈ PredictionCard.views prediction predicting
        ↔ predicting = true)
    ∧ (CardView.results ∈ PredictionCard.views prediction predicting
        ↔ prediction ≠ none ∧ predicting = false) := by
  cases prediction <;> cases predicting <;> simp [PredictionCard.views]

/-- The class of a confidence by threshold. -/
theorem getConfidenceColor_cases (c : ℚ) :
    (80 ≤ c ∧ getConfidenceColor c = "high")
    ∨ (60 ≤ c ∧ c < 80 ∧ getConfidenceColor c = "medium")
    ∨ (c < 60 ∧ getConfidenceColor c = "low") := by
  unfold getConfidenceColor
  by_cases h1 : c ≥ 80
  · left; exact ⟨h1, by simp [h1]⟩
  · by_cases h2 : c ≥ 60
    · right; left; exact ⟨h2, lt_of_not_ge h1, by simp [h1, h2]⟩
    · right; right; exact ⟨lt_of_not_ge h2, by simp [h1, h2]⟩

/-- C14: `getConfidenceColor` gives "high" iff the confidence is at least
80, "medium" iff it is at least 60 and below 80, "low" iff it is below 60;
and it is monotone for the order low, medium, high. -/
theorem C14_confidence_classes (c c1 c2 : ℚ) (h : c1 ≤ c2) :
    (getConfidenceColor c = "high" ↔ 80 ≤ c)
    ∧ (getConfidenceColor c = "medium" ↔ 60 ≤ c ∧ c < 80)
    ∧ (getConfidenceColor c = "low" ↔ c < 60)
    ∧ confidenceRank (getConfidenceColor c1) ≤ confidenceRank (getConfidenceColor c2) := by
  refine ⟨?_, ?_, ?_, ?_⟩
  · rcases getConfidenceColor_cases c with ⟨h1, e⟩ | ⟨h1, h2, e⟩ | ⟨h1, e⟩
    · simp [e, h1]
    · rw [e]; constructor
      · intro h; exact absurd h (by decide)
      · intro h; linarith
    · rw [e]; constructor
      · intro h; exact absurd h (by decide)
      · intro h; linarith
  · rcases getConfidenceColor_cases c with ⟨h1, e⟩ | ⟨h1, h2, e⟩ | ⟨h1, e⟩
    · rw [e]; constructor
      · intro h; exact absurd h (by decide)
      · rintro ⟨_, h⟩; linarith
    · simp [e, h1, h2]
    · rw [e]; constructor
      · intro h; exact absurd h (by decide)
      · rintro ⟨h, _⟩; linarith
  · rcases getConfidenceColor_cases c with ⟨h1, e⟩ | ⟨h1, h2, e⟩ | ⟨h1, e⟩
    · rw [e]; constructor
      · intro h; exact absurd h (by decide)
      · intro h; linarith
    · rw [e]; constructor
      · intro h; exact absurd h (by decide)
      · intro h; linarith
    · simp [e, h1]
  · rcases getConfidenceColor_cases c1 with ⟨a1, e1⟩ | ⟨a1, b1, e1⟩ | ⟨a1, e1⟩ <;>
      rcases getConfidenceColor_cases c2 with ⟨a2, e2⟩ | ⟨a2, b2, e2⟩ | ⟨a2, e2⟩ <;>
      rw [e1, e2] <;> first
        | decide
        | (exfalso; linarith)

/-- Witness for C14: confidences 55 and 85. -/
theorem C14_confidence_classes_witness :
    (getConfidenceColor 70 = "high" ↔ (80 : ℚ) ≤ 70)
    ∧ (getConfidenceColor 70 = "medium" ↔ (60 : ℚ) ≤ 70 ∧ (70 : ℚ) < 80)
    ∧ (getConfidenceColor 70 = "low" ↔ (70 : ℚ) < 60)
    ∧ confidenceRank (getConfidenceColor 55) ≤ confidenceRank (getConfidenceColor 85) :=
  C14_confidence_classes 70 55 85 (by norm_num)

/-- C5: the error state after `handlePredict`, per outcome of the request:
the generic connection message on a rejection; on `success: false` the
backend's `error` string, or 'Failed to generate prediction' when that
string is missing or empty; on `success: true` the error state is null,
`onPredict` is called with `response.data` and the prediction becomes it. -/
theorem C5_handlePredict_outcomes (s : State) (symbol : Option String) (e : String)
    (d : Option Prediction) (err : Option String) (m : String) (hm : m ≠ "") :
    (handlePredict_done symbol (.error e) (handlePredict_click s)).error
        = some "Failed to connect to prediction service. Please try again."
    ∧ (handlePredict_done symbol (.ok ⟨false, d, some m⟩) (handlePredict_click s)).error
        = some m
    ∧ (handlePredict_done symbol (.ok ⟨false, d, none⟩) (handlePredict_click s)).error
        = some "Failed to generate prediction"
    ∧ (handlePredict_done symbol (.ok ⟨false, d, some ""⟩) (handlePredict_click s)).error
        = some "Failed to generate prediction"
    ∧ (handlePredict_done symbol (.ok ⟨true, d, err⟩) (handlePredict_click s)).error = none
    ∧ handlePredict_settle (.ok ⟨true, d, err⟩) = [.onPredict d, .setPredicting false]
    ∧ (handlePredict_done symbol (.ok ⟨true, d, err⟩) (handlePredict_click s)).prediction = d := by
  simp [handlePredict_done, handlePredict_click, handlePredict_settle, handlePredict_begin,
    applyCard, orElse, hm]

/-- Witness for C5: the backend message "Model unavailable". -/
theorem C5_handlePredict_outcomes_witness :
    (handlePredict_done (some "AAPL") (.error "timeout") (handlePredict_click State.initial)).error
        = some "Failed to connect to prediction service. Please try again."
    ∧ (handlePredict_done (some "AAPL") (.ok ⟨false, none, some "Model unavailable"⟩)
        (handlePredict_click State.initial)).error = some "Model unavailable"
    ∧ (handlePredict_done (some "AAPL") (.ok ⟨false, none, none⟩)
        (handlePredict_click State.initial)).error = some "Failed to generate prediction"
    ∧ (handlePredict_done (some "AAPL") (.ok ⟨false, none, some ""⟩)
        (handlePredict_click State.initial)).error = some "Failed to generate prediction"
    ∧ (handlePredict_done (some "AAPL") (.ok ⟨true, none, none⟩)
        (handlePredict_click State.initial)).error = none
    ∧ handlePredict_settle (.ok ⟨true, none, none⟩) = [.onPredict none, .setPredicting false]
    ∧ (handlePredict_done (some "AAPL") (.ok ⟨true, none, none⟩)
        (handlePredict_click State.initial)).prediction = none :=
  C5_handlePredict_outcomes State.initial (some "AAPL") "timeout" none none
    "Model unavailable" (by decide)

/-- C16: a failed request (rejection or `success: false`) makes no
`onPredict` call and leaves the prediction as it was; in every outcome
`predicting` is set to true first, before the request is sent, and set to
false last. -/
theorem C16_failure_keeps_prediction (s : State) (symbol : Option String) (e : String)
    (d : Option Prediction) (err : Option String) (r : Except String PredictResponse)
    (x : Option Prediction) :
    CardAction.onPredict x ∉ handlePredict_settle (.error e)
    ∧ CardAction.onPredict x ∉ handlePredict_settle (.ok ⟨false, d, err⟩)
    ∧ (handlePredict_done symbol (.error e) s).prediction = s.prediction
    ∧ (handlePredict_done symbol (.ok ⟨false, d, err⟩) s).prediction = s.prediction
    ∧ (handlePredict_click s).prediction = s.prediction
    ∧ handlePredict_begin.head? = some (.setPredicting true)
    ∧ (handlePredict_click s).predicting = true
    ∧ (handlePredict_click s).requests
        = s.requests ++ [predictStockReq (templ s.selectedStock) (some s.days)]
    ∧ (handlePredict_settle r).getLast? = some (.setPredicting false)
    ∧ (handlePredict_done symbol r s).predicting = false := by
  refine ⟨?_, ?_, ?_, ?_, ?_, ?_, ?_, ?_, ?_, ?_⟩ <;>
    simp [handlePredict_done, handlePredict_click, handlePredict_settle, handlePredict_begin,
      applyCard]

/-! ## Dashboard: `fetchStocks` -/

/-- C12: when `getAllStocks` resolves with `success: true` and a non-empty
list, `stocks` becomes that list and `selectedStock` the symbol of its first
element; on `success: false` or a rejection both are left as they were; in
every case `loading` is false when `fetchStocks` has finished. -/
theorem C12_fetchStocks (s : State) (first : Stock) (rest stocks : List Stock) (e : String)
    (r : Except String StocksResponse) :
    (fetchStocks_settle (.ok ⟨true, first :: rest⟩) s).stocks = first :: rest
    ∧ (fetchStocks_settle (.ok ⟨true, first :: rest⟩) s).selectedStock = some first.symbol
    ∧ (fetchStocks_settle (.ok ⟨false, stocks⟩) s).stocks = s.stocks
    ∧ (fetchStocks_settle (.ok ⟨false, stocks⟩) s).selectedStock = s.selectedStock
    ∧ (fetchStocks_settle (.error e) s).stocks = s.stocks
    ∧ (fetchStocks_settle (.error e) s).selectedStock = s.selectedStock
    ∧ (fetchStocks_settle r s).loading = false := by
  simp [fetchStocks_settle]

/-! ## StockChart: chart data -/

/-- With a valid base date and every predicted date in range the loop never
throws and appends the expected entries. -/
theorem pushPredictions_valid (lib : DateLib) (t : Int) (dates : Nat → Int) (q : List ℚ)
    (k : Nat) (acc : List ChartEntry)
    (hr : ∀ i, i < q.length → lib.addDays t (k + i + 1) = some (dates (k + i))) :
    pushPredictions lib (some t) q k acc = .ok (acc ++ expectedPredictions lib dates q k) := by
  induction q generalizing k acc with
  | nil => simp [pushPredictions, expectedPredictions]
  | cons price rest ih =>
    have h0 := hr 0 (by simp)
    simp only [Nat.add_zero] at h0
    have hrest : ∀ i, i < rest.length →
        lib.addDays t (k + 1 + i + 1) = some (dates (k + 1 + i)) := by
      intro i hi
      have h1 := hr (i + 1) (by simpa using hi)
      have e1 : k + (i + 1) + 1 = k + 1 + i + 1 := by omega
      have e2 : k + (i + 1) = k + 1 + i := by omega
      rw [e1, e2] at h1
      exact h1
    simp [pushPredictions, predictionEntry, h0, expectedPredictions, ih (k + 1) _ hrest,
      expectedPrediction]

/-- Length of the expected prediction entries. -/
theorem expectedPredictions_length (lib : DateLib) (dates : Nat → Int) (q : List ℚ) (k : Nat) :
    (expectedPredictions lib dates q k).length = q.length := by
  induction q generalizing k with
  | nil => rfl
  | cons price rest ih => simp [expectedPredictions, ih]

/-- The entry at each position of the expected prediction entries. -/
theorem expectedPredictions_getElem? (lib : DateLib) (dates : Nat → Int) (q : List ℚ)
    (k i : Nat) :
    (expectedPredictions lib dates q k)[i]?
      = q[i]?.map (expectedPrediction lib (dates (k + i))) := by
  induction q generalizing k i with
  | nil => simp [expectedPredictions]
  | cons price rest ih =>
    cases i with
    | zero => simp [expectedPredictions]
    | succ j =>
      simp only [expectedPredictions, List.getElem?_cons_succ, ih]
      have hk : k + 1 + j = k + (j + 1) := by omega
      rw [hk]

/-- The base date of the source is the described one whenever that is valid. -/
theorem lastDate_of_baseDate (lib : DateLib) (now : Int) (h : List HistoricalPoint) (t : Int)
    (hb : BaseDate lib now h t) : lastDate lib now h = some t := by
  unfold BaseDate at hb
  unfold lastDate
  cases hl : h.getLast? with
  | none => simp [hl] at hb; simp [hb]
  | some item => simp [hl] at hb; simp [hb.1, hb.2]

/-- C11 (refuted as stated): under ALL a history may end in a point whose
date string is not a date; with one predicted price `toISOString` then
throws a RangeError, and there is no chart data at all. -/
theorem C11_counterexample :
    ¬ (∀ (lib : DateLib) (now : Int) (h : List HistoricalPoint) (pred : Prediction)
        (q : List ℚ), pred.allPredictions = some q →
        ∃ entries, chartData lib now h (some pred) = .ok entries
          ∧ entries.length = h.length + q.length) := by
  intro hall
  obtain ⟨entries, he, -⟩ :=
    hall DateLib.sample 0 [⟨"not a date", 100⟩] (samplePrediction 101) [101] rfl
  have hthrow : chartData DateLib.sample 0 [⟨"not a date", 100⟩] (some (samplePrediction 101))
      = .error "RangeError: Invalid time value" := rfl
  rw [hthrow] at he
  cases he

/-- The same throw at the largest valid date: the first predicted date leaves
the range of time values. -/
theorem chartData_throws_past_range :
    chartData DateLib.sample 0 [⟨"+275760-09-13T00:00:00.000Z", 100⟩]
      (some (samplePrediction 101)) = .error "RangeError: Invalid time value" :=
  rfl

/-- C11 (amended): when the history is empty or its last point has a
non-empty valid date (base date `t`, the clock for an empty history) and
every predicted date, `i + 1` calendar days after `t`, is inside the range
of dates (`dates i`), then with a prediction whose `allPredictions` is `q`
the chart data has `|h| + |q|` entries: first the points of `h` in order,
price = close, no prediction value; then for each `i` an entry with
prediction `q[i]`, no price, dated `dates i`. Without a prediction, or
without `allPredictions`, it is the historical entries alone, for every
history. -/
theorem C11_chartData (lib : DateLib) (now : Int) (h : List HistoricalPoint)
    (pred : Prediction) (q : List ℚ) (t : Int) (dates : Nat → Int)
    (hq : pred.allPredictions = some q) (hb : BaseDate lib now h t)
    (hr : ∀ i, i < q.length → lib.addDays t (i + 1) = some (dates i)) :
    (∃ entries, chartData lib now h (some pred) = .ok entries
      ∧ entries.length = h.length + q.length
      ∧ (∀ i (hi : i < h.length), ∃ entry, entries[i]? = some entry
          ∧ entry.price = some (h.get ⟨i, hi⟩).close ∧ entry.prediction = none
          ∧ entry.fullDate = (h.get ⟨i, hi⟩).date
          ∧ entry.date = lib.toLocaleDateString (lib.parse (h.get ⟨i, hi⟩).date))
      ∧ (∀ i (hi : i < q.length), ∃ entry, entries[h.length + i]? = some entry
          ∧ entry.prediction = some (q.get ⟨i, hi⟩) ∧ entry.price = none
          ∧ lib.addDays t (i + 1) = some (dates i)
          ∧ entry.fullDate = lib.toISOString (dates i)
          ∧ entry.date = lib.toLocaleDateString (some (dates i))))
    ∧ chartData lib now h none = .ok (h.map (historyEntry lib))
    ∧ chartData lib now h (some { pred with allPredictions := none })
        = .ok (h.map (historyEntry lib))
    ∧ (h.map (historyEntry lib)).length = h.length := by
  refine ⟨⟨h.map (historyEntry lib) ++ expectedPredictions lib dates q 0, ?_, ?_, ?_, ?_⟩,
    rfl, rfl, by simp⟩
  · have hr0 : ∀ i, i < q.length → lib.addDays t (0 + i + 1) = some (dates (0 + i)) := by
      intro i hi
      simpa using hr i hi
    simp [chartData, hq, lastDate_of_baseDate lib now h t hb,
      pushPredictions_valid lib t dates q 0 _ hr0]
  · simp [expectedPredictions_length]
  · intro i hi
    refine ⟨historyEntry lib (h.get ⟨i, hi⟩), ?_, rfl, rfl, rfl, rfl⟩
    rw [List.getElem?_append_left (by simpa using hi)]
    simp [List.getElem?_map, List.getElem?_eq_getElem hi]
  · intro i hi
    refine ⟨expectedPrediction lib (dates i) (q.get ⟨i, hi⟩), ?_, rfl, rfl, hr i hi, rfl, rfl⟩
    rw [List.getElem?_append_right (by simp)]
    simp [expectedPredictions_getElem?, List.getElem?_eq_getElem hi]

/-- Witness for the amended C11: a one-point history and two predicted prices. -/
theorem C11_chartData_witness :
    BaseDate DateLib.sample 0 [⟨"2024-01-01", 100⟩] 1704067200000
    ∧ (∀ i, i < [(101 : ℚ), 102].length →
        DateLib.sample.addDays 1704067200000 (i + 1)
          = some (1704067200000 + ((i : Int) + 1) * msPerDay))
    ∧ ((∃ entries, chartData DateLib.sample 0 [⟨"2024-01-01", 100⟩]
          (some ⟨⟨101, 102, 103⟩, "bullish", 80, "hold", some [101, 102]⟩) = .ok entries
        ∧ entries.length = [(⟨"2024-01-01", 100⟩ : HistoricalPoint)].length + [(101 : ℚ), 102].length
        ∧ (∀ i (hi : i < [(⟨"2024-01-01", 100⟩ : HistoricalPoint)].length),
            ∃ entry, entries[i]? = some entry
            ∧ entry.price = some ([(⟨"2024-01-01", 100⟩ : HistoricalPoint)].get ⟨i, hi⟩).close
            ∧ entry.prediction = none
            ∧ entry.fullDate = ([(⟨"2024-01-01", 100⟩ : HistoricalPoint)].get ⟨i, hi⟩).date
            ∧ entry.date = DateLib.sample.toLocaleDateString
                (DateLib.sample.parse ([(⟨"2024-01-01", 100⟩ : HistoricalPoint)].get ⟨i, hi⟩).date))
        ∧ (∀ i (hi : i < [(101 : ℚ), 102].length),
            ∃ entry, entries[[(⟨"2024-01-01", 100⟩ : HistoricalPoint)].length + i]? = some entry
            ∧ entry.prediction = some ([(101 : ℚ), 102].get ⟨i, hi⟩) ∧ entry.price = none
            ∧ DateLib.sample.addDays 1704067200000 (i + 1)
                = some (1704067200000 + ((i : Int) + 1) * msPerDay)
            ∧ entry.fullDate
                = DateLib.sample.toISOString (1704067200000 + ((i : Int) + 1) * msPerDay)
            ∧ entry.date = DateLib.sample.toLocaleDateString
                (some (1704067200000 + ((i : Int) + 1) * msPerDay))))
      ∧ chartData DateLib.sample 0 [⟨"2024-01-01", 100⟩] none
          = .ok ([(⟨"2024-01-01", 100⟩ : HistoricalPoint)].map (historyEntry DateLib.sample))
      ∧ chartData DateLib.sample 0 [⟨"2024-01-01", 100⟩]
          (some { (⟨⟨101, 102, 103⟩, "bullish", 80, "hold", some [101, 102]⟩ : Prediction) with
            allPredictions := none })
          = .ok ([(⟨"2024-01-01", 100⟩ : HistoricalPoint)].map (historyEntry DateLib.sample))
      ∧ ([(⟨"2024-01-01", 100⟩ : HistoricalPoint)].map (historyEntry DateLib.sample)).length
          = [(⟨"2024-01-01", 100⟩ : HistoricalPoint)].length) :=
  have hrange : ∀ i, i < [(101 : ℚ), 102].length →
      DateLib.sample.addDays 1704067200000 (i + 1)
        = some (1704067200000 + ((i : Int) + 1) * msPerDay) := by
    intro i hi
    have hi2 : i < 2 := hi
    interval_cases i <;> decide
  ⟨by decide, hrange,
   C11_chartData DateLib.sample 0 [⟨"2024-01-01", 100⟩]
     ⟨⟨101, 102, 103⟩, "bullish", 80, "hold", some [101, 102]⟩ [101, 102] 1704067200000
     (fun i => 1704067200000 + ((i : Int) + 1) * msPerDay) rfl (by decide) hrange⟩

/-! ## StockList -/

/-- The method `includes` decides the substring (infix) relation. -/
theorem includes_iff (s t : String) : includes s t = true ↔ t.data <:+: s.data := by
  unfold includes
  rw [List.any_eq_true]
  constructor
  · rintro ⟨suf, hs, hp⟩
    rw [List.mem_tails] at hs
    rw [List.isPrefixOf_iff_prefix] at hp
    exact List.infix_iff_prefix_suffix.mpr ⟨suf, hp, hs⟩
  · intro h
    obtain ⟨suf, hp, hs⟩ := List.infix_iff_prefix_suffix.mp h
    exact ⟨suf, (List.mem_tails _ _).mpr hs, List.isPrefixOf_iff_prefix.mpr hp⟩

/-- The filter predicate of `StockList` is the case-insensitive containment
of the search term in the symbol or the name. -/
theorem filter_pred_iff (toLowerCase : String → String) (stock : Stock) (t : String) :
    (includes (toLowerCase stock.symbol) (toLowerCase t) ||
      includes (toLowerCase stock.name) (toLowerCase t)) = true
    ↔ ContainsIgnoringCase toLowerCase stock.symbol t
      ∨ ContainsIgnoringCase toLowerCase stock.name t := by
  simp [Bool.or_eq_true, includes_iff, ContainsIgnoringCase]

/-- C17: whatever the stock list and the search term, `StockList` shows
exactly the stocks whose symbol or name contains the term as a substring
ignoring letter case (both sides lower-cased by `toLowerCase`), in their
original order; the empty term shows every stock; two terms that differ in
letter case only (equal once lower-cased) give the same list; the "No
stocks found" notice is shown iff the list is empty. The builtin
`toLowerCase` is arbitrary, with the empty string lower-cased to itself. -/
theorem C17_filteredStocks (toLowerCase : String → String) (stocks : List Stock)
    (t u : String) (hempty : toLowerCase "" = "")
    (hcase : toLowerCase t = toLowerCase u) :
    filteredStocks toLowerCase stocks t = stocks.filter (fun stock =>
        decide (ContainsIgnoringCase toLowerCase stock.symbol t
          ∨ ContainsIgnoringCase toLowerCase stock.name t))
    ∧ (filteredStocks toLowerCase stocks t).Sublist stocks
    ∧ (∀ stock, stock ∈ filteredStocks toLowerCase stocks t ↔
        stock ∈ stocks ∧ (ContainsIgnoringCase toLowerCase stock.symbol t
          ∨ ContainsIgnoringCase toLowerCase stock.name t))
    ∧ (StockList.render toLowerCase stocks t).items = filteredStocks toLowerCase stocks t
    ∧ filteredStocks toLowerCase stocks "" = stocks
    ∧ filteredStocks toLowerCase stocks t = filteredStocks toLowerCase stocks u
    ∧ ((StockList.render toLowerCase stocks t).noResults = true
        ↔ filteredStocks toLowerCase stocks t = []) := by
  refine ⟨?_, List.filter_sublist stocks, ?_, rfl, ?_, ?_, ?_⟩
  · unfold filteredStocks
    apply List.filter_congr
    intro stock _
    rw [Bool.eq_iff_iff, filter_pred_iff]
    simp
  · intro stock
    unfold filteredStocks
    rw [List.mem_filter, filter_pred_iff]
  · unfold filteredStocks
    rw [List.filter_eq_self]
    intro stock _
    rw [filter_pred_iff]
    left
    unfold ContainsIgnoringCase
    rw [hempty]
    exact List.nil_infix
  · unfold filteredStocks
    rw [hcase]
  · simp [StockList.render, List.length_eq_zero]

/-- Witness for C17: ASCII lower-casing, the terms "aapl" and "AAPL". -/
theorem C17_filteredStocks_witness :
    asciiLower "" = "" ∧ asciiLower "aapl" = asciiLower "AAPL"
    ∧ (filteredStocks asciiLower [⟨"AAPL", "Apple Inc."⟩, ⟨"MSFT", "Microsoft"⟩] "aapl"
        = [(⟨"AAPL", "Apple Inc."⟩ : Stock), ⟨"MSFT", "Microsoft"⟩].filter (fun stock =>
          decide (ContainsIgnoringCase asciiLower stock.symbol "aapl"
            ∨ ContainsIgnoringCase asciiLower stock.name "aapl"))
      ∧ (filteredStocks asciiLower [⟨"AAPL", "Apple Inc."⟩, ⟨"MSFT", "Microsoft"⟩] "aapl").Sublist
          [⟨"AAPL", "Apple Inc."⟩, ⟨"MSFT", "Microsoft"⟩]
      ∧ (∀ stock,
          stock ∈ filteredStocks asciiLower [⟨"AAPL", "Apple Inc."⟩, ⟨"MSFT", "Microsoft"⟩] "aapl" ↔
          stock ∈ [(⟨"AAPL", "Apple Inc."⟩ : Stock), ⟨"MSFT", "Microsoft"⟩]
          ∧ (ContainsIgnoringCase asciiLower stock.symbol "aapl"
            ∨ ContainsIgnoringCase asciiLower stock.name "aapl"))
      ∧ (StockList.render asciiLower [⟨"AAPL", "Apple Inc."⟩, ⟨"MSFT", "Microsoft"⟩] "aapl").items
          = filteredStocks asciiLower [⟨"AAPL", "Apple Inc."⟩, ⟨"MSFT", "Microsoft"⟩] "aapl"
      ∧ filteredStocks asciiLower [⟨"AAPL", "Apple Inc."⟩, ⟨"MSFT", "Microsoft"⟩] ""
          = [⟨"AAPL", "Apple Inc."⟩, ⟨"MSFT", "Microsoft"⟩]
      ∧ filteredStocks asciiLower [⟨"AAPL", "Apple Inc."⟩, ⟨"MSFT", "Microsoft"⟩] "aapl"
          = filteredStocks asciiLower [⟨"AAPL", "Apple Inc."⟩, ⟨"MSFT", "Microsoft"⟩] "AAPL"
      ∧ ((StockList.render asciiLower [⟨"AAPL", "Apple Inc."⟩, ⟨"MSFT", "Microsoft"⟩]
            "aapl").noResults = true
          ↔ filteredStocks asciiLower [⟨"AAPL", "Apple Inc."⟩, ⟨"MSFT", "Microsoft"⟩] "aapl" = [])) :=
  ⟨by decide, by decide,
   C17_filteredStocks asciiLower [⟨"AAPL", "Apple Inc."⟩, ⟨"MSFT", "Microsoft"⟩] "aapl" "AAPL"
     (by decide) (by decide)⟩

/-! ## Dashboard: concrete runs -/

/-- C15: there is a run in which the user selects AAPL and then GOOG,
AAPL's detail and history answers arrive after GOOG's, and the page ends
with `selectedStock` = GOOG while `stockDetail` and `historicalData` are
AAPL's: nothing guards against out-of-order completion. -/
theorem C15_out_of_order_completion :
    ∃ s, run State.mounted raceRun = some s
      ∧ s.selectedStock = some "GOOG"
      ∧ s.stockDetail = some (sampleDetail "AAPL" 100)
      ∧ s.historicalData = some (sampleHistory 100)
      ∧ s.pending = [] := by
  refine ⟨_, rfl, ?_, ?_, ?_, ?_⟩ <;> decide

/-- C3 (evaluated at the failing run): the user asks for a prediction for
MSFT and selects AAPL while the request is in flight. Right after the
switch the prediction is null; when the MSFT answer arrives,
`onPredict` stores it: the page ends with `selectedStock` = AAPL and the
prediction obtained for MSFT, the only prediction request sent being
`POST /predict/MSFT`. -/
theorem C3_stale_prediction_after_switch :
    (∃ s, run State.mounted (stalePredictionRun.take 5) = some s
      ∧ s.selectedStock = some "AAPL" ∧ s.prediction = none
      ∧ Pending.predict (some "MSFT") 7 ∈ s.pending)
    ∧ ∃ s, run State.mounted stalePredictionRun = some s
      ∧ s.selectedStock = some "AAPL"
      ∧ s.prediction = some (samplePrediction 310)
      ∧ s.requests.filter (fun r => r.method = .POST) = [predictStockReq "MSFT" (some 7)] := by
  refine ⟨⟨_, rfl, ?_, ?_, ?_⟩, ⟨_, rfl, ?_, ?_, ?_⟩⟩ <;> decide

/-- Selecting a different stock clears the prediction at the moment of the
switch: the effect calls `fetchStockDetails`, which sets it to null. -/
theorem select_clears_prediction (s s1 : State) (symbol : String)
    (hne : s.selectedStock ≠ some symbol) (hsym : symbol ≠ "")
    (h : step s (.selectStock symbol) = some s1) :
    s1.selectedStock = some symbol ∧ s1.prediction = none := by
  simp only [step, handle] at h
  by_cases hg : s.dashboardShown = true ∧ symbol ∈ s.stocks.map Stock.symbol
  · rw [if_pos hg] at h
    simp only [Option.map_some', Option.some.injEq] at h
    subst h
    have hne2 : ¬ (some symbol = s.selectedStock) := fun e => hne e.symm
    simp [selectedStockEffect, handleStockSelect, hne2, hsym, fetchStockDetails_begin]
  · rw [if_neg hg] at h
    simp at h

/-- C6 (refuted as stated): in the reachable state after the stock list has
loaded, the rejection of the detail request is a failure after which the
page shows no inline error message at all. -/
theorem C6_counterexample :
    ¬ (∀ (events : List Event) (s s1 : State) (e : Event),
        run State.mounted events = some s → e.isFailure = true → step s e = some s1 →
        s1.errorMessages ≠ []) := by
  intro h
  exact h [.stocksSettled (.ok ⟨true, sampleStocks⟩)] _ _
    (.detailSettled (some "MSFT") (.error "Network Error")) rfl rfl rfl (by decide)

/-! ## Dashboard: the `days` invariant -/

/-- The invariant survives a handler that keeps `days` and sends at most one
more request, which is a GET or a prediction request. -/
theorem DaysInv.extend {s s1 : State} (hinv : DaysInv s) (hd : s1.days ∈ dayOptions)
    (hr : s1.requests = s.requests ∨
      ∃ g, s1.requests = s.requests ++ [g] ∧ (g.method = .POST → IsPredictRequest g)) :
    DaysInv s1 := by
  refine ⟨hd, fun r hmem hpost => ?_⟩
  rcases hr with hr | ⟨g, hr, hg⟩
  · rw [hr] at hmem; exact hinv.2 r hmem hpost
  · rw [hr, List.mem_append, List.mem_singleton] at hmem
    rcases hmem with hmem | rfl
    · exact hinv.2 r hmem hpost
    · exact hg hpost

/-- The effect on `selectedStock` keeps the invariant: it sends a GET at most. -/
theorem selectedStockEffect_daysInv (prev : Option String) (s : State) (hinv : DaysInv s) :
    DaysInv (selectedStockEffect prev s) := by
  unfold selectedStockEffect
  split_ifs with h1
  · exact hinv
  · split
    · split_ifs
      · exact hinv.extend hinv.1 (Or.inr ⟨_, rfl, by simp [getStockDetailReq, apiGet]⟩)
      · exact hinv
    · exact hinv

/-- Every handler keeps the invariant. -/
theorem handle_daysInv (s s1 : State) (e : Event) (hinv : DaysInv s)
    (h : handle s e = some s1) : DaysInv s1 := by
  cases e with
  | stocksSettled r =>
    simp only [handle] at h
    split_ifs at h
    simp only [Option.some.injEq] at h
    subst h
    refine hinv.extend ?_ (Or.inl ?_)
    · rcases r with _ | ⟨⟨_ | _, stocks⟩⟩ <;> simp [fetchStocks_settle] <;> try exact hinv.1
      split_ifs <;> exact hinv.1
    · rcases r with _ | ⟨⟨_ | _, stocks⟩⟩ <;> simp [fetchStocks_settle]
      split_ifs <;> rfl
  | detailSettled symbol r =>
    simp only [handle] at h
    split_ifs at h
    simp only [Option.some.injEq] at h
    subst h
    rcases r with _ | ⟨⟨_ | _, d⟩⟩
    · exact hinv.extend hinv.1 (Or.inl rfl)
    · exact hinv.extend hinv.1 (Or.inr ⟨_, rfl, by simp [getStockHistoryReq, apiGet]⟩)
    · exact hinv.extend hinv.1 (Or.inr ⟨_, rfl, by simp [getStockHistoryReq, apiGet]⟩)
  | historySettled symbol r =>
    simp only [handle] at h
    split_ifs at h
    simp only [Option.some.injEq] at h
    subst h
    rcases r with _ | ⟨⟨_ | _, d⟩⟩ <;> exact hinv.extend hinv.1 (Or.inl rfl)
  | predictSettled symbol days r =>
    simp only [handle] at h
    split_ifs at h
    simp only [Option.some.injEq] at h
    subst h
    rcases r with _ | ⟨⟨_ | _, d, err⟩⟩ <;>
      exact hinv.extend (by simpa [handlePredict_done, handlePredict_settle, applyCard] using hinv.1)
        (Or.inl (by simp [handlePredict_done, handlePredict_settle, applyCard]))
  | selectStock symbol =>
    simp only [handle] at h
    split_ifs at h
    simp only [Option.some.injEq] at h
    subst h
    exact hinv.extend hinv.1 (Or.inl rfl)
  | refresh =>
    simp only [handle] at h
    split_ifs at h
    simp only [Option.some.injEq] at h
    subst h
    exact hinv.extend hinv.1 (Or.inr ⟨_, rfl, by simp [getStockDetailReq, apiGet]⟩)
  | changeDays value =>
    simp only [handle] at h
    split_ifs at h with hg
    simp only [Option.some.injEq] at h
    subst h
    exact hinv.extend hg.2.2.2 (Or.inl rfl)
  | clickPredict =>
    simp only [handle] at h
    split_ifs at h
    simp only [Option.some.injEq] at h
    subst h
    refine hinv.extend (by simpa [handlePredict_click, handlePredict_begin, applyCard] using hinv.1)
      (Or.inr ⟨predictStockReq (templ s.selectedStock) (some s.days), ?_, fun _ => ?_⟩)
    · simp [handlePredict_click, handlePredict_begin, applyCard]
    · refine ⟨_, _, rfl, hinv.1, ?_⟩
      have := hinv.1
      simp only [dayOptions, List.mem_cons, List.mem_singleton, List.not_mem_nil, or_false] at this
      omega

/-- Every step keeps the invariant. -/
theorem step_daysInv (s s1 : State) (e : Event) (hinv : DaysInv s)
    (h : step s e = some s1) : DaysInv s1 := by
  unfold step at h
  cases hh : handle s e with
  | none => simp [hh] at h
  | some s2 =>
    simp only [hh, Option.map_some', Option.some.injEq] at h
    subst h
    exact selectedStockEffect_daysInv _ _ (handle_daysInv s s2 e hinv hh)

/-- Every run keeps the invariant. -/
theorem run_daysInv (events : List Event) (s s1 : State) (hinv : DaysInv s)
    (h : run s events = some s1) : DaysInv s1 := by
  induction events generalizing s with
  | nil => simp only [run, Option.some.injEq] at h; subst h; exact hinv
  | cons e es ih =>
    simp only [run] at h
    cases hs : step s e with
    | none => simp [hs] at h
    | some s2 =>
      simp only [hs] at h
      exact ih s2 (step_daysInv s s2 e hinv hs) h

/-- C7: the `days` state starts at 7; in every state the page can reach it
is one of 1, 3, 7, 14, 30; a click on a predict button passes it to
`predictStock`; and every prediction request ever sent (every POST) carries
one of these values, hence a value from 1 to 30. -/
theorem C7_days_in_range (events : List Event) (s : State)
    (h : run State.mounted events = some s) :
    State.initial.days = 7
    ∧ s.days ∈ [1, 3, 7, 14, 30]
    ∧ (handlePredict_click s).requests
        = s.requests ++ [predictStockReq (templ s.selectedStock) (some s.days)]
    ∧ ∀ r ∈ s.requests, r.method = .POST →
        ∃ symbol d, r = predictStockReq symbol (some d) ∧ d ∈ [1, 3, 7, 14, 30]
          ∧ 1 ≤ d ∧ d ≤ 30 := by
  have hinit : DaysInv State.mounted := by
    refine ⟨by decide, fun r hr hpost => ?_⟩
    simp [State.mounted, fetchStocks_begin, State.initial, getAllStocksReq, apiGet] at hr
    subst hr
    simp at hpost
  have hinv := run_daysInv events State.mounted s hinit h
  refine ⟨rfl, hinv.1, ?_, hinv.2⟩
  simp [handlePredict_click, handlePredict_begin, applyCard]

/-- Witness for C7: the run of the stale prediction, which sends one
prediction request. -/
theorem C7_days_in_range_witness :
    run State.mounted stalePredictionRun
      = some (((run State.mounted stalePredictionRun).getD State.initial))
    ∧ (State.initial.days = 7
      ∧ ((run State.mounted stalePredictionRun).getD State.initial).days ∈ [1, 3, 7, 14, 30]
      ∧ (handlePredict_click ((run State.mounted stalePredictionRun).getD State.initial)).requests
          = ((run State.mounted stalePredictionRun).getD State.initial).requests
            ++ [predictStockReq
                (templ ((run State.mounted stalePredictionRun).getD State.initial).selectedStock)
                (some ((run State.mounted stalePredictionRun).getD State.initial).days)]
      ∧ ∀ r ∈ ((run State.mounted stalePredictionRun).getD State.initial).requests,
          r.method = .POST →
          ∃ symbol d, r = predictStockReq symbol (some d) ∧ d ∈ [1, 3, 7, 14, 30]
            ∧ 1 ≤ d ∧ d ≤ 30) :=
  ⟨rfl, C7_days_in_range stalePredictionRun
    ((run State.mounted stalePredictionRun).getD State.initial) rfl⟩

/-! ## Which failures reach the screen -/

/-- The message chosen by `response.error || fallback` is never empty. -/
theorem orElse_ne_empty (a : Option String) (b : String) (hb : b ≠ "") : orElse a b ≠ "" := by
  unfold orElse
  split
  · split_ifs with h
    · exact h
    · exact hb
  · exact hb

/-- The card is mounted exactly when `stockDetail` is set. -/
theorem cardShown_iff (s : State) : s.cardShown = s.stockDetail.isSome := by
  unfold State.cardShown State.dashboardShown
  cases s.stockDetail <;> simp

/-- C6 (amended): a prediction request that fails (transport error or
`success: false`) while the card is mounted and no prediction is held
leaves its message on screen as the inline error; a failure of the stock
list, detail or history fetch changes neither the error state nor the
inline messages on screen: a rejection is only logged to the console, a
`success: false` answer is ignored. -/
theorem C6_prediction_failures_inline_fetch_failures_silent (s s0 : State)
    (symbol : Option String) (e : String) (d : Option Prediction) (err : Option String)
    (stocks : List Stock) (detail : Option StockDetail) (hist : Option (List HistoricalPoint))
    (hcard : s.cardShown = true) (hnone : s.prediction = none) :
    (handlePredict_done symbol (.error e) s).errorMessages
        = ["Failed to connect to prediction service. Please try again."]
    ∧ (handlePredict_done symbol (.ok ⟨false, d, err⟩) s).errorMessages
        = [orElse err "Failed to generate prediction"]
    ∧ (fetchStocks_settle (.error e) s0).errorMessages = s0.errorMessages
    ∧ (fetchStocks_settle (.ok ⟨false, stocks⟩) s0).errorMessages = s0.errorMessages
    ∧ (fetchStockDetails_detail symbol (.error e) s0).errorMessages = s0.errorMessages
    ∧ (fetchStockDetails_detail symbol (.ok ⟨false, detail⟩) s0).errorMessages = s0.errorMessages
    ∧ (fetchStockDetails_history symbol (.error e) s0).errorMessages = s0.errorMessages
    ∧ (fetchStockDetails_history symbol (.ok ⟨false, hist⟩) s0).errorMessages = s0.errorMessages
    ∧ (fetchStocks_settle (.error e) s0).error = s0.error
    ∧ (fetchStockDetails_detail symbol (.error e) s0).error = s0.error
    ∧ (fetchStockDetails_history symbol (.error e) s0).error = s0.error
    ∧ (fetchStocks_settle (.error e) s0).console
        = s0.console ++ ["Error fetching stocks:", "Error fetching stocks:"]
    ∧ (fetchStockDetails_detail symbol (.error e) s0).console
        = s0.console ++ ["Error fetching " ++ templ symbol ++ " details:",
            "Error fetching stock details:"]
    ∧ (fetchStockDetails_history symbol (.error e) s0).console
        = s0.console ++ ["Error fetching " ++ templ symbol ++ " history:",
            "Error fetching stock details:"] := by
  have hc : s.stockDetail.isSome = true := by rw [← cardShown_iff]; exact hcard
  have hm := orElse_ne_empty err "Failed to generate prediction" (by decide)
  refine ⟨?_, ?_, ?_, ?_, ?_, ?_, ?_, ?_, rfl, rfl, rfl, rfl, rfl, rfl⟩
  · simp [State.errorMessages, cardShown_iff, handlePredict_done, handlePredict_settle,
      applyCard, PredictionCard.errorMessages, hc, hnone]
  · simp [State.errorMessages, cardShown_iff, handlePredict_done, handlePredict_settle,
      applyCard, PredictionCard.errorMessages, hc, hnone, hm]
  all_goals
    simp [State.errorMessages, cardShown_iff, fetchStocks_settle, fetchStockDetails_detail,
      fetchStockDetails_history]

/-- Witness for the amended C6: the page with MSFT loaded. -/
theorem C6_prediction_failures_inline_fetch_failures_silent_witness :
    sampleLoaded.cardShown = true ∧ sampleLoaded.prediction = none
    ∧ (handlePredict_done (some "MSFT") (.error "timeout") sampleLoaded).errorMessages
        = ["Failed to connect to prediction service. Please try again."]
    ∧ (handlePredict_done (some "MSFT") (.ok ⟨false, none, some "No model"⟩)
        sampleLoaded).errorMessages = [orElse (some "No model") "Failed to generate prediction"] :=
  ⟨by decide, by decide,
   (C6_prediction_failures_inline_fetch_failures_silent sampleLoaded sampleLoaded (some "MSFT")
      "timeout" none (some "No model") [] none none (by decide) (by decide)).1,
   (C6_prediction_failures_inline_fetch_failures_silent sampleLoaded sampleLoaded (some "MSFT")
      "timeout" none (some "No model") [] none none (by decide) (by decide)).2.1⟩

/-- A failed "Regenerate" (a prediction is held when the request fails)
sets the error state but shows nothing: the `error-message` element exists
in the prompt block only. -/
theorem regenerate_failure_not_shown (s : State) (symbol : Option String) (e : String)
    (p : Prediction) (hp : s.prediction = some p) :
    (handlePredict_done symbol (.error e) s).error
        = some "Failed to connect to prediction service. Please try again."
    ∧ (handlePredict_done symbol (.error e) s).errorMessages = [] := by
  simp [State.errorMessages, handlePredict_done, handlePredict_settle, applyCard,
    PredictionCard.errorMessages, hp]

end Rialo
